import Mathlib

/-!
Shallow embedding of the admission-control core of yahoo/k8s-namespace-guard
(`listener.go`): the Decision Engine `validateNamespaceDeletion` and the
Request Adjudicator `webhookHandler`, together with proofs of the spec's
testable properties.

Effectful collaborators (the Kubernetes client) are modelled by explicit
result values: each per-kind List query is an `Except String Nat` (API error
text, or item count), and the namespace Get is an `NsLookup` value.
-/

namespace NamespaceGuard

/-- `bypassAnnotationKey` constant from listener.go line 19. -/
def bypassAnnotationKey : String :=
  "k8s-namespace-guard.admission.yahoo.com/allow-cascade-delete"

/-- `v1.GroupVersionResource` (only the three fields the handler compares). -/
structure GroupVersionResource where
  group : String
  version : String
  resource : String
deriving DecidableEq, Repr

/-- `namespaceResourceType` from listener.go line 23. -/
def namespaceResourceType : GroupVersionResource :=
  { group := "", version := "v1", resource := "namespaces" }

/-- `v1alpha1.Delete`: the admission operation constant for DELETE. -/
def deleteOperation : String := "DELETE"

/-- Result of one resource-kind List query in a namespace: an API error
(its `%v` text) or the length of the returned item list. -/
abbrev QueryResult := Except String Nat

instance : DecidableEq QueryResult := fun a b =>
  match a, b with
  | Except.ok n, Except.ok m =>
      if h : n = m then isTrue (by rw [h]) else isFalse (by intro hc; cases hc; exact h rfl)
  | Except.error e, Except.error f =>
      if h : e = f then isTrue (by rw [h]) else isFalse (by intro hc; cases hc; exact h rfl)
  | Except.ok _, Except.error _ => isFalse (by intro hc; cases hc)
  | Except.error _, Except.ok _ => isFalse (by intro hc; cases hc)

/-- The cluster's answers to the eight fixed-kind queries for one namespace:
one field per counter function (podCounter .. autoScaleCounter). -/
structure ClusterState where
  pods : QueryResult
  services : QueryResult
  replicasets : QueryResult
  deployments : QueryResult
  statefulsets : QueryResult
  daemonsets : QueryResult
  ingresses : QueryResult
  horizontalpodautoscalers : QueryResult

/-- The `counters` table of validateNamespaceDeletion (listener.go 120-132):
kind names paired with the result their counter returns, in source order. -/
def counters (s : ClusterState) : List (String × QueryResult) :=
  [("pods", s.pods),
   ("services", s.services),
   ("replicasets", s.replicasets),
   ("deployments", s.deployments),
   ("statefulsets", s.statefulsets),
   ("daemonsets", s.daemonsets),
   ("ingresses", s.ingresses),
   ("horizontalpodautoscalers", s.horizontalpodautoscalers)]

/-- The `errList` accumulated by the loop at listener.go 137-146: for each
failing counter, `fmt.Errorf("error listing %s, %v", c.kind, err)`. -/
def gatherErrList : List (String × QueryResult) → List String
  | [] => []
  | (kind, Except.error e) :: rest =>
      ("error listing " ++ kind ++ ", " ++ e) :: gatherErrList rest
  | (_, Except.ok _) :: rest => gatherErrList rest

/-- The `nonEmptyList` accumulated by the loop at listener.go 137-146: for
each succeeding counter with a positive count, `fmt.Sprintf("%s(%d)", ...)`. -/
def gatherNonEmptyList : List (String × QueryResult) → List String
  | [] => []
  | (_, Except.error _) :: rest => gatherNonEmptyList rest
  | (kind, Except.ok num) :: rest =>
      if num > 0 then (kind ++ "(" ++ toString num ++ ")") :: gatherNonEmptyList rest
      else gatherNonEmptyList rest

/-- Go's `%v` rendering of a slice of strings (or of errors): the elements
space-separated inside square brackets. -/
def fmtSlice (l : List String) : String :=
  "[" ++ String.intercalate " " l ++ "]"

/-- The non-empty-resources sentence from listener.go line 150. -/
def nonEmptyClause (ns : String) (l : List String) : String :=
  "The namespace " ++ ns ++
    " you are trying to remove contains one or more of these resources: " ++
    fmtSlice l ++ ". Please delete them and try again."

/-- The query-errors sentence from listener.go line 153. -/
def errClause (ns : String) (l : List String) : String :=
  "The following error(s) occurred while validating the DELETE operation on the namespace " ++
    ns ++ ": " ++ fmtSlice l ++ "."

/-- The bypass-hint sentence appended at listener.go line 156. -/
def bypassWarning (ns : String) : String :=
  " WARNING: If you know what you are doing, run `kubectl annotate namespace " ++
    ns ++ " " ++ bypassAnnotationKey ++ "=true` to bypass this policy check."

/-- `validateNamespaceDeletion` (listener.go 118-160): runs the eight fixed
counters against the namespace, and returns `some errorText` (the Go non-nil
error) when any kind is non-empty or any query failed, else `none`. -/
def validateNamespaceDeletion (ns : String) (s : ClusterState) : Option String :=
  let errList := gatherErrList (counters s)
  let nonEmptyList := gatherNonEmptyList (counters s)
  let errStr :=
    (if nonEmptyList.length > 0 then nonEmptyClause ns nonEmptyList else "") ++
      (if errList.length > 0 then errClause ns errList else "")
  if errStr ≠ "" then some (errStr ++ bypassWarning ns) else none

/-- Outcome of `clientset.CoreV1().Namespaces().Get` at listener.go 203:
a not-found error, some other error (each with its text), or the namespace
object, of which the handler only reads `GetAnnotations()` (a possibly-nil
map, modelled as an optional association list). -/
inductive NsLookup where
  | notFound (msg : String)
  | otherError (msg : String)
  | found (anns : Option (List (String × String)))

/-- Go map indexing `anns[key]`: the stored value, or the zero value `""`. -/
def annValue (anns : List (String × String)) (key : String) : String :=
  match anns.lookup key with
  | some v => v
  | none => ""

/-- The decoded `admReview.Spec` fields the handler reads. -/
structure AdmissionReviewSpec where
  operation : String
  resource : GroupVersionResource
  name : String

/-- Go `%v` of a GroupVersionResource struct value: `\x7bgroup version resource\x7d`. -/
def fmtGVR (g : GroupVersionResource) : String :=
  "\x7b" ++ g.group ++ " " ++ g.version ++ " " ++ g.resource ++ "\x7d"

/-- What the handler writes back: either `http.Error` (plain text plus
status) for the method/path gates, or a `writeResponse` admission review
(allowed flag, reason string) — written without an explicit status header,
so with net/http's default status 200. -/
inductive HandlerResult where
  | httpError (msg : String) (status : Nat)
  | reviewResponse (allowed : Bool) (reason : String) (status : Nat)
deriving DecidableEq, Repr

/-- `webhookHandler` (listener.go 163-233). `decoded` is the outcome of
JSON-decoding the request body; `nsGet` the namespace Get collaborator;
`cluster` gives each namespace's eight query results. -/
def webhookHandler (method path : String) (decoded : Except String AdmissionReviewSpec)
    (admitAll : Bool) (nsGet : String → NsLookup) (cluster : String → ClusterState) :
    HandlerResult :=
  if method ≠ "POST" then
    HandlerResult.httpError
      ("Incoming request method " ++ method ++ " is not supported, only POST is supported") 405
  else if path ≠ "/" then
    HandlerResult.httpError (path ++ " 404 Not Found") 404
  else
    match decoded with
    | Except.error e =>
        HandlerResult.reviewResponse false
          ("Failed to decode the request body json into an AdmissionReview resource: " ++ e) 200
    | Except.ok spec =>
        if admitAll then HandlerResult.reviewResponse true "" 200
        else if spec.resource ≠ namespaceResourceType then
          HandlerResult.reviewResponse false
            ("Incoming resource is not a Namespace: " ++ fmtGVR spec.resource) 200
        else if spec.operation ≠ deleteOperation then
          HandlerResult.reviewResponse false
            ("Incoming operation is " ++ spec.operation ++ " on namespace " ++ spec.name ++
              ". Only DELETE is currently supported.") 200
        else
          match nsGet spec.name with
          | NsLookup.notFound _ => HandlerResult.reviewResponse true "" 200
          | NsLookup.otherError e =>
              HandlerResult.reviewResponse false
                ("Error occurred while retrieving the namespace " ++ spec.name ++ ": " ++ e) 200
          | NsLookup.found anns =>
              if (match anns with
                  | some a => annValue a bypassAnnotationKey == "true"
                  | none => false) then
                HandlerResult.reviewResponse true "" 200
              else
                match validateNamespaceDeletion spec.name (cluster spec.name) with
                | some e => HandlerResult.reviewResponse false e 200
                | none => HandlerResult.reviewResponse true "" 200

/-- The HTTP status of a handler outcome. -/
def statusOf : HandlerResult → Nat
  | HandlerResult.httpError _ st => st
  | HandlerResult.reviewResponse _ _ st => st

/-- The kinds named in the error clause: kinds whose query failed, in order. -/
def errKinds (cs : List (String × QueryResult)) : List String :=
  cs.filterMap (fun c =>
    match c.2 with
    | Except.error _ => some c.1
    | Except.ok _ => none)

/-- The kinds named in the non-empty clause: kinds whose query succeeded
with a positive count, in order. -/
def nonEmptyKinds (cs : List (String × QueryResult)) : List String :=
  cs.filterMap (fun c =>
    match c.2 with
    | Except.ok n => if n > 0 then some c.1 else none
    | Except.error _ => none)

/-- Cluster answers: every query succeeds with count 0. -/
def allEmptyCluster : ClusterState :=
  ⟨Except.ok 0, Except.ok 0, Except.ok 0, Except.ok 0,
   Except.ok 0, Except.ok 0, Except.ok 0, Except.ok 0⟩

/-- Cluster answers: one pod, every other query succeeds with count 0. -/
def onePodCluster : ClusterState :=
  ⟨Except.ok 1, Except.ok 0, Except.ok 0, Except.ok 0,
   Except.ok 0, Except.ok 0, Except.ok 0, Except.ok 0⟩

/-- Cluster answers: the pod query fails, every other query returns 0. -/
def podErrCluster : ClusterState :=
  ⟨Except.error "connection refused", Except.ok 0, Except.ok 0, Except.ok 0,
   Except.ok 0, Except.ok 0, Except.ok 0, Except.ok 0⟩

/-- A well-formed DELETE review spec for namespace ns1. -/
def deleteNs1Spec : AdmissionReviewSpec :=
  { operation := "DELETE", resource := namespaceResourceType, name := "ns1" }

/-! ### Helper lemmas -/

lemma append_ne_empty_left (a b : String) (h : a ≠ "") : a ++ b ≠ "" := by
  intro hab
  have hd : a.data ++ b.data = [] := by rw [← String.data_append, hab]
  exact h (String.ext (List.append_eq_nil.mp hd).1)

lemma append_ne_empty_right (a b : String) (h : b ≠ "") : a ++ b ≠ "" := by
  intro hab
  have hd : a.data ++ b.data = [] := by rw [← String.data_append, hab]
  exact h (String.ext (List.append_eq_nil.mp hd).2)

lemma nonEmptyClause_ne_empty (ns : String) (l : List String) :
    nonEmptyClause ns l ≠ "" := by
  unfold nonEmptyClause
  exact append_ne_empty_left _ _ (append_ne_empty_left _ _ (append_ne_empty_left _ _
    (append_ne_empty_left _ _ (by decide))))

lemma errClause_ne_empty (ns : String) (l : List String) :
    errClause ns l ≠ "" := by
  unfold errClause
  exact append_ne_empty_left _ _ (append_ne_empty_left _ _ (append_ne_empty_left _ _
    (append_ne_empty_left _ _ (by decide))))

lemma bypassWarning_ne_empty (ns : String) : bypassWarning ns ≠ "" := by
  unfold bypassWarning
  exact append_ne_empty_left _ _ (append_ne_empty_left _ _ (append_ne_empty_left _ _
    (append_ne_empty_left _ _ (by decide))))

lemma if_length_pos {α : Type} [DecidableEq α] (l : List α) (x : String) :
    (if l.length > 0 then x else "") = (if l = [] then "" else x) := by
  cases l <;> simp

/-- `gatherNonEmptyList` keeps exactly the in-order succeeding counters with
positive count, formatted `kind(count)`. -/
lemma gatherNonEmptyList_eq_filterMap (cs : List (String × QueryResult)) :
    gatherNonEmptyList cs = cs.filterMap (fun c =>
      match c.2 with
      | Except.ok n => if n > 0 then some (c.1 ++ "(" ++ toString n ++ ")") else none
      | Except.error _ => none) := by
  induction cs with
  | nil => rfl
  | cons c rest ih =>
    obtain ⟨k, r⟩ := c
    cases r with
    | error e => simpa [gatherNonEmptyList, List.filterMap_cons] using ih
    | ok n =>
      by_cases hn : n > 0 <;>
        simp [gatherNonEmptyList, List.filterMap_cons, hn, ih]

/-- `gatherErrList` keeps exactly the in-order failing counters, formatted
`error listing kind, err`. -/
lemma gatherErrList_eq_filterMap (cs : List (String × QueryResult)) :
    gatherErrList cs = cs.filterMap (fun c =>
      match c.2 with
      | Except.error e => some ("error listing " ++ c.1 ++ ", " ++ e)
      | Except.ok _ => none) := by
  induction cs with
  | nil => rfl
  | cons c rest ih =>
    obtain ⟨k, r⟩ := c
    cases r with
    | error e => simp [gatherErrList, List.filterMap_cons, ih]
    | ok n => simpa [gatherErrList, List.filterMap_cons] using ih

lemma mem_gatherErrList {cs : List (String × QueryResult)} {k e : String}
    (h : (k, Except.error e) ∈ cs) :
    ("error listing " ++ k ++ ", " ++ e) ∈ gatherErrList cs := by
  rw [gatherErrList_eq_filterMap]
  exact List.mem_filterMap.mpr ⟨(k, Except.error e), h, rfl⟩

/-- Closed form of `validateNamespaceDeletion`: `none` exactly when both
accumulated lists are empty, else the concatenation of the applicable
clauses plus the bypass warning. -/
lemma validateNamespaceDeletion_eq (ns : String) (s : ClusterState) :
    validateNamespaceDeletion ns s =
      (if gatherNonEmptyList (counters s) = [] ∧ gatherErrList (counters s) = [] then none
       else some
        (((if gatherNonEmptyList (counters s) = [] then ""
            else nonEmptyClause ns (gatherNonEmptyList (counters s))) ++
          (if gatherErrList (counters s) = [] then ""
            else errClause ns (gatherErrList (counters s)))) ++ bypassWarning ns)) := by
  unfold validateNamespaceDeletion
  dsimp only
  rw [if_length_pos, if_length_pos]
  by_cases hne : gatherNonEmptyList (counters s) = [] <;>
    by_cases hel : gatherErrList (counters s) = []
  · simp [hne, hel]
  · have hx : ("" ++ errClause ns (gatherErrList (counters s)) : String) ≠ "" :=
      append_ne_empty_right _ _ (errClause_ne_empty ns _)
    simp [hne, hel, hx, errClause_ne_empty]
  · have hx : (nonEmptyClause ns (gatherNonEmptyList (counters s)) ++ "" : String) ≠ "" :=
      append_ne_empty_left _ _ (nonEmptyClause_ne_empty ns _)
    simp [hne, hel, hx, nonEmptyClause_ne_empty]
  · have hx : (nonEmptyClause ns (gatherNonEmptyList (counters s)) ++
        errClause ns (gatherErrList (counters s)) : String) ≠ "" :=
      append_ne_empty_left _ _ (nonEmptyClause_ne_empty ns _)
    simp [hne, hel, hx]

/-! ### Claims about the Decision Engine -/

/-- C1: whenever at least one fixed-kind query succeeds with count > 0,
`validateNamespaceDeletion` denies, and the non-empty-list clause of the
denial names exactly the kinds whose query succeeded with positive count,
each formatted `kind(count)`, in the fixed enumeration order of the
`counters` table — kinds that returned errors only affect the separate
error clause. -/
theorem c1_nonempty_clause_exact (ns : String) (s : ClusterState)
    (h : gatherNonEmptyList (counters s) ≠ []) :
    gatherNonEmptyList (counters s) = (counters s).filterMap (fun c =>
      match c.2 with
      | Except.ok n => if n > 0 then some (c.1 ++ "(" ++ toString n ++ ")") else none
      | Except.error _ => none) ∧
    validateNamespaceDeletion ns s =
      some ((nonEmptyClause ns (gatherNonEmptyList (counters s)) ++
        (if gatherErrList (counters s) = [] then ""
          else errClause ns (gatherErrList (counters s)))) ++ bypassWarning ns) := by
  refine ⟨gatherNonEmptyList_eq_filterMap _, ?_⟩
  rw [validateNamespaceDeletion_eq]
  simp [h]

/-- Witness for C1 at namespace ns1 with one pod and all other counts 0. -/
theorem c1_nonempty_clause_exact_witness :
    gatherNonEmptyList (counters onePodCluster) ≠ [] ∧
    (gatherNonEmptyList (counters onePodCluster) = (counters onePodCluster).filterMap (fun c =>
      match c.2 with
      | Except.ok n => if n > 0 then some (c.1 ++ "(" ++ toString n ++ ")") else none
      | Except.error _ => none) ∧
    validateNamespaceDeletion "ns1" onePodCluster =
      some ((nonEmptyClause "ns1" (gatherNonEmptyList (counters onePodCluster)) ++
        (if gatherErrList (counters onePodCluster) = [] then ""
          else errClause "ns1" (gatherErrList (counters onePodCluster)))) ++
        bypassWarning "ns1")) :=
  ⟨by decide, c1_nonempty_clause_exact "ns1" onePodCluster (by decide)⟩

/-- C2: when every one of the eight fixed-kind queries succeeds with count 0,
`validateNamespaceDeletion` returns nil (the verdict is Clear/Allowed). -/
theorem c2_all_empty_clear (ns : String) (s : ClusterState)
    (h : ∀ c ∈ counters s, c.2 = Except.ok 0) :
    validateNamespaceDeletion ns s = none := by
  have hne : gatherNonEmptyList (counters s) = [] := by
    rw [gatherNonEmptyList_eq_filterMap]
    rw [List.filterMap_eq_nil_iff]
    intro c hc
    rw [h c hc]
    rfl
  have hel : gatherErrList (counters s) = [] := by
    rw [gatherErrList_eq_filterMap]
    rw [List.filterMap_eq_nil_iff]
    intro c hc
    rw [h c hc]
  rw [validateNamespaceDeletion_eq]
  simp [hne, hel]

/-- Witness for C2 at namespace ns1 with all eight counts 0. -/
theorem c2_all_empty_clear_witness :
    (∀ c ∈ counters allEmptyCluster, c.2 = Except.ok 0) ∧
    validateNamespaceDeletion "ns1" allEmptyCluster = none :=
  ⟨by decide, c2_all_empty_clear "ns1" allEmptyCluster (by decide)⟩

/-- C3: a failing fixed-kind query never aborts the loop — the error list is
the filter of the whole counters table, the failing kind's formatted error
text is in it, and the denial message carries the error clause (preceded by
the non-empty clause exactly when that list is non-empty, so both clauses
are concatenated when both lists are non-empty), even when all other kinds
returned 0. -/
theorem c3_query_failure_reported (ns : String) (s : ClusterState) (k e : String)
    (h : (k, Except.error e) ∈ counters s) :
    gatherErrList (counters s) = (counters s).filterMap (fun c =>
      match c.2 with
      | Except.error err => some ("error listing " ++ c.1 ++ ", " ++ err)
      | Except.ok _ => none) ∧
    ("error listing " ++ k ++ ", " ++ e) ∈ gatherErrList (counters s) ∧
    validateNamespaceDeletion ns s =
      some (((if gatherNonEmptyList (counters s) = [] then ""
          else nonEmptyClause ns (gatherNonEmptyList (counters s))) ++
        errClause ns (gatherErrList (counters s))) ++ bypassWarning ns) := by
  have hmem := mem_gatherErrList h
  have hel : gatherErrList (counters s) ≠ [] := List.ne_nil_of_mem hmem
  refine ⟨gatherErrList_eq_filterMap _, hmem, ?_⟩
  rw [validateNamespaceDeletion_eq]
  simp [hel]

/-- Witness for C3 at namespace ns1 where only the pod query fails. -/
theorem c3_query_failure_reported_witness :
    ("pods", (Except.error "connection refused" : QueryResult)) ∈ counters podErrCluster ∧
    (gatherErrList (counters podErrCluster) = (counters podErrCluster).filterMap (fun c =>
      match c.2 with
      | Except.error err => some ("error listing " ++ c.1 ++ ", " ++ err)
      | Except.ok _ => none) ∧
    ("error listing " ++ "pods" ++ ", " ++ "connection refused") ∈
      gatherErrList (counters podErrCluster) ∧
    validateNamespaceDeletion "ns1" podErrCluster =
      some (((if gatherNonEmptyList (counters podErrCluster) = [] then ""
          else nonEmptyClause "ns1" (gatherNonEmptyList (counters podErrCluster))) ++
        errClause "ns1" (gatherErrList (counters podErrCluster))) ++ bypassWarning "ns1")) :=
  ⟨by decide, c3_query_failure_reported "ns1" podErrCluster "pods" "connection refused" (by decide)⟩

/-- Per-kind count bound: a kind contributes to at most one of the two kind
lists, so its combined multiplicity is bounded by its multiplicity among the
table's kind names. -/
lemma count_errKinds_append_le (cs : List (String × QueryResult)) (k : String) :
    (errKinds cs ++ nonEmptyKinds cs).count k ≤ (cs.map Prod.fst).count k := by
  induction cs with
  | nil => simp [errKinds, nonEmptyKinds]
  | cons c rest ih =>
    obtain ⟨k0, r⟩ := c
    rw [show ((k0, r) :: rest).map Prod.fst = k0 :: rest.map Prod.fst from rfl]
    cases r with
    | error e =>
      have hE : errKinds ((k0, Except.error e) :: rest) = k0 :: errKinds rest := by
        simp [errKinds, List.filterMap_cons]
      have hN : nonEmptyKinds ((k0, Except.error e) :: rest) = nonEmptyKinds rest := by
        simp [nonEmptyKinds, List.filterMap_cons]
      rw [hE, hN, List.cons_append]
      by_cases hk : k = k0
      · subst hk
        rw [List.count_cons_self, List.count_cons_self]
        exact Nat.succ_le_succ ih
      · rw [List.count_cons_of_ne hk, List.count_cons_of_ne hk]
        exact ih
    | ok n =>
      have hE : errKinds ((k0, Except.ok n) :: rest) = errKinds rest := by
        simp [errKinds, List.filterMap_cons]
      by_cases hn : n > 0
      · have hN : nonEmptyKinds ((k0, Except.ok n) :: rest) =
            k0 :: nonEmptyKinds rest := by
          simp [nonEmptyKinds, List.filterMap_cons, hn]
        rw [hE, hN]
        rw [List.count_append] at ih
        rw [List.count_append]
        by_cases hk : k = k0
        · subst hk
          rw [List.count_cons_self, List.count_cons_self]
          omega
        · rw [List.count_cons_of_ne hk, List.count_cons_of_ne hk]
          exact ih
      · have hN : nonEmptyKinds ((k0, Except.ok n) :: rest) = nonEmptyKinds rest := by
          simp [nonEmptyKinds, List.filterMap_cons, hn]
        rw [hE, hN]
        exact le_trans ih (List.count_le_count_cons k k0 _)

lemma map_fst_counters (s : ClusterState) :
    (counters s).map Prod.fst =
      ["pods", "services", "replicasets", "deployments", "statefulsets",
       "daemonsets", "ingresses", "horizontalpodautoscalers"] := rfl

set_option maxRecDepth 4096 in
/-- C10: in every denial, the kinds named in the error clause and the kinds
named in the non-empty clause are disjoint, each kind appearing at most once
over the two clauses; a kind whose query failed is recorded only as an error
and never also reported as non-empty. -/
theorem c10_kinds_disjoint (ns : String) (s : ClusterState) (msg : String)
    (h : validateNamespaceDeletion ns s = some msg) :
    (errKinds (counters s) ++ nonEmptyKinds (counters s)).Nodup ∧
    ∀ k e, (k, Except.error e) ∈ counters s →
      k ∈ errKinds (counters s) ∧ k ∉ nonEmptyKinds (counters s) := by
  have hnd : ((counters s).map Prod.fst).Nodup := by
    rw [map_fst_counters]
    decide
  have hnodup : (errKinds (counters s) ++ nonEmptyKinds (counters s)).Nodup := by
    rw [List.nodup_iff_count_le_one]
    intro a
    exact le_trans (count_errKinds_append_le (counters s) a)
      (List.nodup_iff_count_le_one.mp hnd a)
  refine ⟨hnodup, ?_⟩
  intro k e hmem
  have hk : k ∈ errKinds (counters s) :=
    List.mem_filterMap.mpr ⟨(k, Except.error e), hmem, rfl⟩
  have hdisj : List.Disjoint (errKinds (counters s)) (nonEmptyKinds (counters s)) :=
    (List.nodup_append.mp hnodup).2.2
  exact ⟨hk, fun hk2 => hdisj hk hk2⟩

set_option maxRecDepth 8192 in
/-- Witness for C10 at the denial produced when only the pod query fails. -/
theorem c10_kinds_disjoint_witness :
    validateNamespaceDeletion "ns1" podErrCluster =
      some (("" ++ errClause "ns1" (gatherErrList (counters podErrCluster))) ++
        bypassWarning "ns1") ∧
    ((errKinds (counters podErrCluster) ++ nonEmptyKinds (counters podErrCluster)).Nodup ∧
    ∀ k e, (k, Except.error e) ∈ counters podErrCluster →
      k ∈ errKinds (counters podErrCluster) ∧ k ∉ nonEmptyKinds (counters podErrCluster)) := by
  have hval : validateNamespaceDeletion "ns1" podErrCluster =
      some (("" ++ errClause "ns1" (gatherErrList (counters podErrCluster))) ++
        bypassWarning "ns1") := by decide
  exact ⟨hval, c10_kinds_disjoint "ns1" podErrCluster _ hval⟩

/-! ### Claims about the Request Adjudicator -/

/-- The text of every denial returned by `validateNamespaceDeletion` is
non-empty (it always ends with the bypass warning). -/
lemma validateNamespaceDeletion_some_ne_empty {ns : String} {s : ClusterState}
    {msg : String} (h : validateNamespaceDeletion ns s = some msg) : msg ≠ "" := by
  rw [validateNamespaceDeletion_eq] at h
  by_cases hc : gatherNonEmptyList (counters s) = [] ∧ gatherErrList (counters s) = []
  · rw [if_pos hc] at h
    cases h
  · rw [if_neg hc] at h
    cases h
    exact append_ne_empty_right _ _ (bypassWarning_ne_empty ns)

/-- Reduction of the handler on a well-formed POST / request with the
admit-all flag off: what remains are the resource gate, the operation gate,
the namespace lookup, the bypass check and the delegated validation. -/
lemma webhookHandler_post_ok (spec : AdmissionReviewSpec) (nsGet : String → NsLookup)
    (cluster : String → ClusterState) :
    webhookHandler "POST" "/" (Except.ok spec) false nsGet cluster =
      (if spec.resource ≠ namespaceResourceType then
        HandlerResult.reviewResponse false
          ("Incoming resource is not a Namespace: " ++ fmtGVR spec.resource) 200
      else if spec.operation ≠ deleteOperation then
        HandlerResult.reviewResponse false
          ("Incoming operation is " ++ spec.operation ++ " on namespace " ++ spec.name ++
            ". Only DELETE is currently supported.") 200
      else
        match nsGet spec.name with
        | NsLookup.notFound _ => HandlerResult.reviewResponse true "" 200
        | NsLookup.otherError e =>
            HandlerResult.reviewResponse false
              ("Error occurred while retrieving the namespace " ++ spec.name ++ ": " ++ e) 200
        | NsLookup.found anns =>
            if (match anns with
                | some a => annValue a bypassAnnotationKey == "true"
                | none => false) then
              HandlerResult.reviewResponse true "" 200
            else
              match validateNamespaceDeletion spec.name (cluster spec.name) with
              | some e => HandlerResult.reviewResponse false e 200
              | none => HandlerResult.reviewResponse true "" 200) := rfl

/-- Reduction of the handler past the resource and operation gates on a
well-formed DELETE review of a namespace. -/
lemma webhookHandler_delete_path (spec : AdmissionReviewSpec) (nsGet : String → NsLookup)
    (cluster : String → ClusterState)
    (hres : spec.resource = namespaceResourceType)
    (hop : spec.operation = deleteOperation) :
    webhookHandler "POST" "/" (Except.ok spec) false nsGet cluster =
      (match nsGet spec.name with
       | NsLookup.notFound _ => HandlerResult.reviewResponse true "" 200
       | NsLookup.otherError e =>
           HandlerResult.reviewResponse false
             ("Error occurred while retrieving the namespace " ++ spec.name ++ ": " ++ e) 200
       | NsLookup.found anns =>
           if (match anns with
               | some a => annValue a bypassAnnotationKey == "true"
               | none => false) then
             HandlerResult.reviewResponse true "" 200
           else
             match validateNamespaceDeletion spec.name (cluster spec.name) with
             | some e => HandlerResult.reviewResponse false e 200
             | none => HandlerResult.reviewResponse true "" 200) := by
  rw [webhookHandler_post_ok]
  rw [if_neg (fun hc => hc hres), if_neg (fun hc => hc hop)]

/-- C4 counterexample: at a concrete undecodable body, the response is the
decode-failure denial but its HTTP status is 200, which is not a 4xx client
error as the claim states. -/
theorem c4_counterexample :
    webhookHandler "POST" "/" (Except.error "unexpected EOF") false
        (fun _ => NsLookup.notFound "missing") (fun _ => allEmptyCluster) =
      HandlerResult.reviewResponse false
        ("Failed to decode the request body json into an AdmissionReview resource: " ++
          "unexpected EOF") 200 ∧
    ¬(400 ≤ statusOf (webhookHandler "POST" "/" (Except.error "unexpected EOF") false
        (fun _ => NsLookup.notFound "missing") (fun _ => allEmptyCluster)) ∧
      statusOf (webhookHandler "POST" "/" (Except.error "unexpected EOF") false
        (fun _ => NsLookup.notFound "missing") (fun _ => allEmptyCluster)) ≤ 499) :=
  ⟨rfl, by decide⟩

/-- C4 (amended): for every request body that fails to decode, the response
has allowed=false with a reason that is the decode-failure prefix followed
by the raw decode error, and the HTTP status is 200 (the handler writes the
admission response without setting an error status code). -/
theorem c4_decode_failure (e : String) (admitAll : Bool) (nsGet : String → NsLookup)
    (cluster : String → ClusterState) :
    webhookHandler "POST" "/" (Except.error e) admitAll nsGet cluster =
      HandlerResult.reviewResponse false
        ("Failed to decode the request body json into an AdmissionReview resource: " ++ e)
        200 := rfl

/-- C5: with the global admitAll override on, every well-formed POST /
request is allowed with an empty reason, whatever its resource type,
operation, namespace lookup outcome, or child-resource counts. -/
theorem c5_admit_all_allows (spec : AdmissionReviewSpec) (nsGet : String → NsLookup)
    (cluster : String → ClusterState) :
    webhookHandler "POST" "/" (Except.ok spec) true nsGet cluster =
      HandlerResult.reviewResponse true "" 200 := rfl

/-- C6: on a well-formed DELETE review of an existing namespace, a bypass
annotation textually equal to "true" yields Allowed whatever the cluster
contents; any other situation (value different from "true", or a nil
annotation map) falls through to the Decision Engine's verdict. -/
theorem c6_bypass_marker_exact (spec : AdmissionReviewSpec) (nsGet : String → NsLookup)
    (cluster : String → ClusterState) (annsOpt : Option (List (String × String)))
    (hres : spec.resource = namespaceResourceType)
    (hop : spec.operation = deleteOperation)
    (hget : nsGet spec.name = NsLookup.found annsOpt) :
    ((∃ a, annsOpt = some a ∧ annValue a bypassAnnotationKey = "true") →
        webhookHandler "POST" "/" (Except.ok spec) false nsGet cluster =
          HandlerResult.reviewResponse true "" 200) ∧
    ((∀ a, annsOpt = some a → annValue a bypassAnnotationKey ≠ "true") →
        webhookHandler "POST" "/" (Except.ok spec) false nsGet cluster =
          (match validateNamespaceDeletion spec.name (cluster spec.name) with
           | some e => HandlerResult.reviewResponse false e 200
           | none => HandlerResult.reviewResponse true "" 200)) := by
  rw [webhookHandler_delete_path spec nsGet cluster hres hop, hget]
  constructor
  · rintro ⟨a, rfl, hv⟩
    dsimp only
    rw [hv]
    rfl
  · intro hv
    cases annsOpt with
    | none => rfl
    | some a =>
      have hb : (annValue a bypassAnnotationKey == "true") = false :=
        beq_eq_false_iff_ne.mpr (hv a rfl)
      dsimp only
      rw [hb]
      rfl

/-- Witness for C6: bypass annotation set to "true" on ns1, one pod present,
verdict Allowed. -/
theorem c6_bypass_marker_exact_witness :
    webhookHandler "POST" "/" (Except.ok deleteNs1Spec) false
        (fun _ => NsLookup.found (some [(bypassAnnotationKey, "true")]))
        (fun _ => onePodCluster) =
      HandlerResult.reviewResponse true "" 200 :=
  (c6_bypass_marker_exact deleteNs1Spec
      (fun _ => NsLookup.found (some [(bypassAnnotationKey, "true")]))
      (fun _ => onePodCluster) (some [(bypassAnnotationKey, "true")]) rfl rfl rfl).1
    ⟨[(bypassAnnotationKey, "true")], rfl, by decide⟩

/-- C7: on a well-formed DELETE review, a not-found namespace lookup yields
Allowed; any other lookup error yields Denied with the lookup error in the
reason, and in that case the result does not depend on the cluster's
resource counts (no fixed-kind query is evaluated). -/
theorem c7_lookup_outcomes (spec : AdmissionReviewSpec) (nsGet : String → NsLookup)
    (cluster cluster' : String → ClusterState)
    (hres : spec.resource = namespaceResourceType)
    (hop : spec.operation = deleteOperation) :
    (∀ m, nsGet spec.name = NsLookup.notFound m →
        webhookHandler "POST" "/" (Except.ok spec) false nsGet cluster =
          HandlerResult.reviewResponse true "" 200) ∧
    (∀ e, nsGet spec.name = NsLookup.otherError e →
        webhookHandler "POST" "/" (Except.ok spec) false nsGet cluster =
          HandlerResult.reviewResponse false
            ("Error occurred while retrieving the namespace " ++ spec.name ++ ": " ++ e)
            200 ∧
        webhookHandler "POST" "/" (Except.ok spec) false nsGet cluster =
          webhookHandler "POST" "/" (Except.ok spec) false nsGet cluster') := by
  constructor
  · intro m hm
    rw [webhookHandler_delete_path spec nsGet cluster hres hop, hm]
  · intro e he
    constructor
    · rw [webhookHandler_delete_path spec nsGet cluster hres hop, he]
    · rw [webhookHandler_delete_path spec nsGet cluster hres hop, he,
        webhookHandler_delete_path spec nsGet cluster' hres hop, he]

/-- Witness for C7: a non-not-found lookup error on ns1 denies with the
lookup error even though one cluster has a pod and the other is empty. -/
theorem c7_lookup_outcomes_witness :
    webhookHandler "POST" "/" (Except.ok deleteNs1Spec) false
        (fun _ => NsLookup.otherError "etcd timeout") (fun _ => onePodCluster) =
      HandlerResult.reviewResponse false
        ("Error occurred while retrieving the namespace " ++ deleteNs1Spec.name ++ ": " ++
          "etcd timeout") 200 ∧
    webhookHandler "POST" "/" (Except.ok deleteNs1Spec) false
        (fun _ => NsLookup.otherError "etcd timeout") (fun _ => onePodCluster) =
      webhookHandler "POST" "/" (Except.ok deleteNs1Spec) false
        (fun _ => NsLookup.otherError "etcd timeout") (fun _ => allEmptyCluster) :=
  (c7_lookup_outcomes deleteNs1Spec (fun _ => NsLookup.otherError "etcd timeout")
      (fun _ => onePodCluster) (fun _ => allEmptyCluster) rfl rfl).2 "etcd timeout" rfl

/-- C8: with the override off, a non-namespace resource triple is denied
naming the unexpected type, and a namespace triple with a non-DELETE
operation is denied naming the unsupported operation; in both cases the
outcome does not depend on the namespace lookup or the cluster contents
(the later gates are never reached). -/
theorem c8_type_and_op_gates (spec : AdmissionReviewSpec)
    (nsGet nsGet' : String → NsLookup) (cluster cluster' : String → ClusterState) :
    (spec.resource ≠ namespaceResourceType →
        webhookHandler "POST" "/" (Except.ok spec) false nsGet cluster =
          HandlerResult.reviewResponse false
            ("Incoming resource is not a Namespace: " ++ fmtGVR spec.resource) 200 ∧
        webhookHandler "POST" "/" (Except.ok spec) false nsGet cluster =
          webhookHandler "POST" "/" (Except.ok spec) false nsGet' cluster') ∧
    (spec.resource = namespaceResourceType → spec.operation ≠ deleteOperation →
        webhookHandler "POST" "/" (Except.ok spec) false nsGet cluster =
          HandlerResult.reviewResponse false
            ("Incoming operation is " ++ spec.operation ++ " on namespace " ++ spec.name ++
              ". Only DELETE is currently supported.") 200 ∧
        webhookHandler "POST" "/" (Except.ok spec) false nsGet cluster =
          webhookHandler "POST" "/" (Except.ok spec) false nsGet' cluster') := by
  constructor
  · intro hres
    constructor
    · rw [webhookHandler_post_ok, if_pos hres]
    · rw [webhookHandler_post_ok spec nsGet cluster, if_pos hres,
        webhookHandler_post_ok spec nsGet' cluster', if_pos hres]
  · intro hres hop
    constructor
    · rw [webhookHandler_post_ok, if_neg (fun hc => hc hres), if_pos hop]
    · rw [webhookHandler_post_ok spec nsGet cluster, if_neg (fun hc => hc hres),
        if_pos hop, webhookHandler_post_ok spec nsGet' cluster',
        if_neg (fun hc => hc hres), if_pos hop]

/-- Witness for C8: a DELETE review whose resource triple is pods is denied
naming the type, independently of lookup and cluster. -/
theorem c8_type_and_op_gates_witness :
    webhookHandler "POST" "/"
        (Except.ok { operation := "DELETE",
                     resource := { group := "", version := "v1", resource := "pods" },
                     name := "ns1" }) false
        (fun _ => NsLookup.notFound "missing") (fun _ => onePodCluster) =
      HandlerResult.reviewResponse false
        ("Incoming resource is not a Namespace: " ++
          fmtGVR { group := "", version := "v1", resource := "pods" }) 200 ∧
    webhookHandler "POST" "/"
        (Except.ok { operation := "DELETE",
                     resource := { group := "", version := "v1", resource := "pods" },
                     name := "ns1" }) false
        (fun _ => NsLookup.notFound "missing") (fun _ => onePodCluster) =
      webhookHandler "POST" "/"
        (Except.ok { operation := "DELETE",
                     resource := { group := "", version := "v1", resource := "pods" },
                     name := "ns1" }) false
        (fun _ => NsLookup.otherError "boom") (fun _ => allEmptyCluster) :=
  (c8_type_and_op_gates
      { operation := "DELETE",
        resource := { group := "", version := "v1", resource := "pods" },
        name := "ns1" }
      (fun _ => NsLookup.notFound "missing") (fun _ => NsLookup.otherError "boom")
      (fun _ => onePodCluster) (fun _ => allEmptyCluster)).1 (by decide)

/-- C9: in every admission review response the handler writes, the reason
string is empty exactly when the allowed flag is true: all Allowed terminals
write an empty reason and all Denied or malformed-input terminals write a
non-empty reason. -/
theorem c9_reason_empty_iff_allowed (method path : String)
    (decoded : Except String AdmissionReviewSpec) (admitAll : Bool)
    (nsGet : String → NsLookup) (cluster : String → ClusterState)
    (allowed : Bool) (reason : String) (status : Nat)
    (h : webhookHandler method path decoded admitAll nsGet cluster =
      HandlerResult.reviewResponse allowed reason status) :
    (reason = "" ↔ allowed = true) := by
  unfold webhookHandler at h
  by_cases hm : method ≠ "POST"
  · rw [if_pos hm] at h
    exact absurd h (by simp)
  rw [if_neg hm] at h
  by_cases hp : path ≠ "/"
  · rw [if_pos hp] at h
    exact absurd h (by simp)
  rw [if_neg hp] at h
  cases decoded with
  | error e =>
    injection h with h1 h2 h3
    subst h1
    subst h2
    have hne : ("Failed to decode the request body json into an AdmissionReview resource: "
        ++ e) ≠ "" := append_ne_empty_left _ _ (by decide)
    simp [hne]
  | ok spec =>
    dsimp only at h
    by_cases ha : admitAll = true
    · rw [if_pos ha] at h
      injection h with h1 h2 h3
      subst h1
      subst h2
      simp
    rw [if_neg ha] at h
    by_cases hres : spec.resource ≠ namespaceResourceType
    · rw [if_pos hres] at h
      injection h with h1 h2 h3
      subst h1
      subst h2
      have hne : ("Incoming resource is not a Namespace: " ++ fmtGVR spec.resource) ≠ "" :=
        append_ne_empty_left _ _ (by decide)
      simp [hne]
    rw [if_neg hres] at h
    by_cases hop : spec.operation ≠ deleteOperation
    · rw [if_pos hop] at h
      injection h with h1 h2 h3
      subst h1
      subst h2
      have hne : ("Incoming operation is " ++ spec.operation ++ " on namespace " ++
          spec.name ++ ". Only DELETE is currently supported.") ≠ "" :=
        append_ne_empty_left _ _ (append_ne_empty_left _ _ (append_ne_empty_left _ _
          (append_ne_empty_left _ _ (by decide))))
      simp [hne]
    rw [if_neg hop] at h
    rcases hnl : nsGet spec.name with m | m | anns <;> rw [hnl] at h <;> dsimp only at h
    · injection h with h1 h2 h3
      subst h1
      subst h2
      simp
    · injection h with h1 h2 h3
      subst h1
      subst h2
      have hne : ("Error occurred while retrieving the namespace " ++ spec.name ++
          ": " ++ m) ≠ "" :=
        append_ne_empty_left _ _ (append_ne_empty_left _ _
          (append_ne_empty_left _ _ (by decide)))
      simp [hne]
    · cases anns with
      | none =>
        dsimp only at h
        rcases hv : validateNamespaceDeletion spec.name (cluster spec.name) with _ | msg
          <;> rw [hv] at h
        · injection h with h1 h2 h3
          subst h1
          subst h2
          simp
        · injection h with h1 h2 h3
          subst h1
          subst h2
          have hne := validateNamespaceDeletion_some_ne_empty hv
          simp [hne]
      | some a =>
        dsimp only at h
        by_cases hb : (annValue a bypassAnnotationKey == "true") = true
        · rw [if_pos hb] at h
          injection h with h1 h2 h3
          subst h1
          subst h2
          simp
        · rw [if_neg hb] at h
          rcases hv : validateNamespaceDeletion spec.name (cluster spec.name) with _ | msg
            <;> rw [hv] at h
          · injection h with h1 h2 h3
            subst h1
            subst h2
            simp
          · injection h with h1 h2 h3
            subst h1
            subst h2
            have hne := validateNamespaceDeletion_some_ne_empty hv
            simp [hne]

/-- Witness for C9 at a concrete allowed response: empty reason, allowed. -/
theorem c9_reason_empty_iff_allowed_witness : ((("" : String) = "") ↔ (true = true)) :=
  c9_reason_empty_iff_allowed "POST" "/" (Except.ok deleteNs1Spec) true
    (fun _ => NsLookup.notFound "missing") (fun _ => allEmptyCluster) true "" 200 rfl

end NamespaceGuard
